import Mathlib

/-
Verification of the Octrafied PFP generator (src/app/page.tsx).

The program is a single React component `OctrafiedApp` wrapped in an
`ErrorBoundary`.  Its mutable state is four `useState` cells:
`username : string`, `image : string | null`, `submitted : boolean`,
`isDownloading : boolean`.  The handlers `handleImageUpload`,
`handleSubmit`, `handleReset` and `downloadPfp` are embedded below as
pure functions on an explicit state record; asynchronous host outcomes
(the FileReader result, the canvas/image-load steps of the export) are
made explicit parameters.  Host side effects (alerts, the busy flag
updates, the triggered download) are modelled as an effect trace.
-/

set_option autoImplicit false

namespace Octrafied

/-- Embedding of the JavaScript string method `trim()`: drop whitespace
from both ends.  (Defined over the character list so that it computes by
kernel reduction.) -/
def trimString (s : String) : String :=
  String.mk (((s.data.dropWhile Char.isWhitespace).reverse.dropWhile
    Char.isWhitespace).reverse)

/-- Embedding of the JavaScript string method `s.startsWith(pre)`. -/
def startsWithStr (s pre : String) : Bool :=
  List.isPrefixOf pre.data s.data

/-- The four `useState` cells of `OctrafiedApp` (page.tsx lines 45-48). -/
structure SessionState where
  username : String
  image : Option String
  submitted : Bool
  isDownloading : Bool
deriving Repr, DecidableEq

/-- The initial state: `useState("")`, `useState<string | null>(null)`,
`useState(false)`, `useState(false)`. -/
def initialState : SessionState :=
  { username := "", image := none, submitted := false, isDownloading := false }

/-- JavaScript truthiness of the `image : string | null` cell as the source
tests it (`if (... && image)`, `if (!image ...)`): `null` and the empty
string are falsy, every other string is truthy. -/
def imageTruthy : Option String → Bool
  | none => false
  | some s => !s.isEmpty

/-- The `onChange` handler of the username input (line 197):
`setUsername(e.target.value)`.  The input carries `maxLength={20}`, so the
UI only ever calls it with values of at most 20 characters. -/
def setUsername (s : SessionState) (v : String) : SessionState :=
  { s with username := v }

/-- An uploaded file as `handleImageUpload` sees it: its MIME `type` string
and the data URL that `FileReader.readAsDataURL` would produce for it. -/
structure UploadedFile where
  name : String
  type : String
deriving Repr, DecidableEq

/-- Outcome of the asynchronous `FileReader` started by `handleImageUpload`:
either `onload` fires with `reader.result`, or `onerror` fires. -/
inductive ReadOutcome where
  | success (result : String)
  | failure
deriving Repr, DecidableEq

/-- Host side effects performed by the handlers: a blocking `alert`,
a `setIsDownloading` update, or a triggered file download. -/
inductive Effect where
  | alert (msg : String)
  | setBusy (b : Bool)
  | download (name : String)
deriving Repr, DecidableEq

/-- `handleImageUpload` (lines 50-74), with the file from
`e.target.files?.[0]` and the FileReader outcome made explicit.
No file: nothing happens.  A file whose MIME type does not start with
`image/`: alert and return.  Otherwise the reader runs: `onload` stores
`reader.result` in `image` when it is truthy, `onerror` alerts. -/
def handleImageUpload (f : Option UploadedFile) (read : ReadOutcome)
    (s : SessionState) : SessionState × List Effect :=
  match f with
  | none => (s, [])
  | some file =>
    if !(startsWithStr file.type "image/") then
      (s, [.alert "Please select a valid image file"])
    else
      match read with
      | .success result =>
          if !result.isEmpty then ({ s with image := some result }, []) else (s, [])
      | .failure => (s, [.alert "Error reading file"])

/-- `handleSubmit` (lines 76-88): `if (username.trim() && image) setSubmitted(true)`. -/
def handleSubmit (s : SessionState) : SessionState :=
  if !(trimString s.username).isEmpty && imageTruthy s.image then
    { s with submitted := true }
  else s

/-- `handleReset` (lines 90-99): `setSubmitted(false)`, `setUsername("")`,
`setImage(null)`, `setIsDownloading(false)`. -/
def handleReset (s : SessionState) : SessionState :=
  { s with submitted := false, username := "", image := none, isDownloading := false }

/-- One character of the character class `[a-zA-Z0-9]` used by the
file-name sanitizer (ASCII ranges). -/
def isAlphaNumChar (c : Char) : Bool :=
  (97 ≤ c.toNat && c.toNat ≤ 122) ||
  (65 ≤ c.toNat && c.toNat ≤ 90) ||
  (48 ≤ c.toNat && c.toNat ≤ 57)

/-- `username.replace(/[^a-zA-Z0-9]/g, "_")` (line 164): every character
outside `[a-zA-Z0-9]` becomes an underscore. -/
def sanitizeUsername (u : String) : String :=
  String.mk (u.data.map (fun c => if isAlphaNumChar c then c else '_'))

/-- The download file name built on line 164:
`` `${username.replace(/[^a-zA-Z0-9]/g, "_")}-octrafied-pfp.png` ``. -/
def pfpFileName (username : String) : String :=
  sanitizeUsername username ++ "-octrafied-pfp.png"

/-! ### The canvas compositing routine inside `downloadPfp` -/

/-- One 2D-canvas context call issued by `downloadPfp`.  Arc angles are
recorded as integer multiples of π (the source uses `0` and `2 * Math.PI`). -/
inductive CanvasOp where
  | save
  | beginPath
  | arc (x y r : Nat) (startPi endPi : Nat)
  | clip
  | drawImage (dx dy dw dh : Nat)
  | restore
  | setStrokeStyle (color : String)
  | setLineWidth (w : Nat)
  | stroke
  | clearRect (x y w h : Nat)
deriving Repr, DecidableEq

/-- `canvasElement.width = 200` (line 116). -/
def canvasWidth : Nat := 200

/-- `canvasElement.height = 200` (line 117). -/
def canvasHeight : Nat := 200

/-- The context call issued before the image loads:
`context.clearRect(0, 0, 200, 200)` (line 120). -/
def setupOps : List CanvasOp := [.clearRect 0 0 200 200]

/-- The context calls issued by `imageElement.onload` (lines 126-147), in
source order: save, circular clip path at (100,100) radius 90, draw the
image into the 180x180 square at (10,10), restore, then stroke the border
circle with `#0d0bda` at line width 6. -/
def onloadOps : List CanvasOp :=
  [ .save,
    .beginPath,
    .arc 100 100 90 0 2,
    .clip,
    .drawImage 10 10 180 180,
    .restore,
    .setStrokeStyle "#0d0bda",
    .setLineWidth 6,
    .beginPath,
    .arc 100 100 90 0 2,
    .stroke ]

/-- The clip-relevant part of a 2D context: whether a clip region is
currently active, and the stack of states pushed by `save`. -/
structure ClipCtx where
  clipActive : Bool
  saved : List Bool
deriving Repr, DecidableEq

/-- A fresh context has no clip and an empty save stack. -/
def ClipCtx.initial : ClipCtx := ⟨false, []⟩

/-- Clip semantics of one context call: `save` pushes the current clip
state, `restore` pops it back, `clip` activates a clip region; every other
call leaves the clip state unchanged. -/
def applyCanvasOp (c : ClipCtx) : CanvasOp → ClipCtx
  | .save => ⟨c.clipActive, c.clipActive :: c.saved⟩
  | .restore =>
      match c.saved with
      | [] => c
      | b :: rest => ⟨b, rest⟩
  | .clip => ⟨true, c.saved⟩
  | _ => c

/-- Whether a clip region is active when the op at index `i` of `ops`
executes (starting from a fresh context). -/
def clipActiveAt (ops : List CanvasOp) (i : Nat) : Bool :=
  ((ops.take i).foldl applyCanvasOp ClipCtx.initial).clipActive

/-- Size of the PNG produced by `canvasElement.toDataURL("image/png", 1.0)`
(line 167): the serialized PNG has the canvas dimensions set on lines
116-117, whatever the dimensions of the source image drawn onto it. -/
def exportedPngSize (srcW srcH : Nat) : Nat × Nat :=
  ((fun _ _ => (canvasWidth, canvasHeight)) srcW srcH : Nat × Nat)

/-! ### The export operation `downloadPfp` as a whole -/

/-- Where the `try` block of `downloadPfp` can fail: the context acquisition
(line 111), the image load (line 155), or the drawing callback (line 150);
or it runs to completion. -/
inductive ExportOutcome where
  | ctxUnavailable
  | imageLoadError
  | drawError
  | success
deriving Repr, DecidableEq

/-- The `try` block of `downloadPfp` (lines 106-172) for given outcomes of
the host steps: each failure point raises the corresponding error, and on
success the download of `pfpFileName username` is triggered. -/
def exportBody (username : String) (o : ExportOutcome) : Except String (List Effect) :=
  match o with
  | .ctxUnavailable => .error "Canvas context not available"
  | .imageLoadError => .error "Failed to load image"
  | .drawError => .error "canvas drawing failed"
  | .success => .ok [.download (pfpFileName username)]

/-- `downloadPfp` (lines 101-179) as its effect trace.  The guard
`if (!image || !username.trim()) return` comes first; then
`setIsDownloading(true)`; then the `try` block, whose failure is caught and
alerted (`catch`, line 175); and `finally` clears the busy flag (line 177). -/
def downloadPfp (s : SessionState) (o : ExportOutcome) : List Effect :=
  if !imageTruthy s.image || (trimString s.username).isEmpty then []
  else
    [.setBusy true] ++
    (match exportBody s.username o with
     | .ok effs => effs
     | .error _ => [.alert "Failed to download PFP. Please try again."]) ++
    [.setBusy false]

/-- Effect of one trace entry on the session state: only the `setBusy`
updates (`setIsDownloading`) touch it. -/
def applyEffect (s : SessionState) : Effect → SessionState
  | .setBusy b => { s with isDownloading := b }
  | _ => s

/-- Run a trace of effects over the session state. -/
def runEffects (s : SessionState) (effs : List Effect) : SessionState :=
  effs.foldl applyEffect s

/-- The session state after an invocation of `downloadPfp` finishes. -/
def downloadPfpRun (s : SessionState) (o : ExportOutcome) : SessionState :=
  runEffects s (downloadPfp s o)

/-- The alerts contained in an effect trace. -/
def alertsOf (effs : List Effect) : List Effect :=
  effs.filter (fun e => match e with | .alert _ => true | _ => false)

/-! ### The error boundary -/

/-- Substring test used to embed `error.message.includes(pat)`: some suffix
of `s` starts with `pat`. -/
def strIncludes (s pat : String) : Bool :=
  s.data.tails.any (fun t => List.isPrefixOf pat.data t)

/-- The filter of `ErrorBoundary.handleError` (line 13): errors mentioning
`"sender"` or `"wallet"` come from wallet browser extensions and are ignored. -/
def isWalletError (msg : String) : Bool :=
  strIncludes msg "sender" || strIncludes msg "wallet"

/-- `ErrorBoundary`'s `handleError` (lines 11-18) acting on the `hasError`
cell: ignored messages return early leaving it unchanged; any other error
sets it to `true`. -/
def handleError (hasError : Bool) (msg : String) : Bool :=
  if isWalletError msg then hasError else true

/-- What `ErrorBoundary` renders (lines 24-41): the recovery screen when
`hasError`, otherwise its children. -/
inductive BoundaryView where
  | recoveryScreen
  | app
deriving Repr, DecidableEq

/-- The render function of `ErrorBoundary`. -/
def boundaryRender (hasError : Bool) : BoundaryView :=
  if hasError then .recoveryScreen else .app

/-- The recovery screen's Try Again button (line 31): `setHasError(false)`. -/
def tryAgain (hasError : Bool) : Bool :=
  (fun _ => false) hasError

/-! ### UI-level step relation

The JSX makes the handlers available only in certain phases: the username
input and the file input exist only on the form shown when `!submitted`
(lines 183-225, with `maxLength={20}` on the username input), while the
download and reset buttons exist only on the preview pane shown when
`submitted` (lines 226-258), the download button being disabled while
`isDownloading` (line 245). -/

/-- One user-triggerable transition of `OctrafiedApp`. -/
inductive Step : SessionState → SessionState → Prop where
  | typeUsername (s : SessionState) (v : String)
      (hlen : v.length ≤ 20) (hphase : s.submitted = false) :
      Step s (setUsername s v)
  | chooseFile (s : SessionState) (f : Option UploadedFile) (r : ReadOutcome)
      (hphase : s.submitted = false) :
      Step s (handleImageUpload f r s).1
  | submitForm (s : SessionState) (hphase : s.submitted = false) :
      Step s (handleSubmit s)
  | resetApp (s : SessionState) (hphase : s.submitted = true) :
      Step s (handleReset s)
  | exportPfp (s : SessionState) (o : ExportOutcome)
      (hphase : s.submitted = true) (hmade : s.isDownloading = false) :
      Step s (downloadPfpRun s o)

/-- States reachable from the initial state through UI steps. -/
inductive Reachable : SessionState → Prop where
  | start : Reachable initialState
  | next (s t : SessionState) (hr : Reachable s) (hs : Step s t) : Reachable t

/-- The session invariant of the spec: in the Previewing phase the stored
username is valid (trimmed non-empty, at most 20 characters) and a source
image is present.  The length bound is carried unconditionally, which is
what the `maxLength={20}` input enforces. -/
def SessionValid (s : SessionState) : Prop :=
  s.username.length ≤ 20 ∧
  (s.submitted = true → trimString s.username ≠ "" ∧ imageTruthy s.image = true)

/-! ### Helper lemmas -/

/-- `handleImageUpload` touches only the `image` cell. -/
theorem handleImageUpload_frame (f : Option UploadedFile) (r : ReadOutcome)
    (s : SessionState) :
    (handleImageUpload f r s).1.username = s.username ∧
    (handleImageUpload f r s).1.submitted = s.submitted ∧
    (handleImageUpload f r s).1.isDownloading = s.isDownloading := by
  rcases f with _ | file
  · exact ⟨rfl, rfl, rfl⟩
  · rcases r with result | _ <;>
      simp only [handleImageUpload] <;> split <;> try split
    all_goals exact ⟨rfl, rfl, rfl⟩

/-- `runEffects` touches only the `isDownloading` cell. -/
theorem runEffects_frame (effs : List Effect) (s : SessionState) :
    (runEffects s effs).username = s.username ∧
    (runEffects s effs).image = s.image ∧
    (runEffects s effs).submitted = s.submitted := by
  induction effs generalizing s with
  | nil => exact ⟨rfl, rfl, rfl⟩
  | cons e rest ih =>
    rcases e with msg | b | nm
    · exact ih s
    · rcases s with ⟨u, img, sub, dl⟩
      exact ih ⟨u, img, sub, b⟩
    · exact ih s

/-- `downloadPfp` touches only the `isDownloading` cell of the state. -/
theorem downloadPfpRun_frame (s : SessionState) (o : ExportOutcome) :
    (downloadPfpRun s o).username = s.username ∧
    (downloadPfpRun s o).image = s.image ∧
    (downloadPfpRun s o).submitted = s.submitted :=
  runEffects_frame (downloadPfp s o) s

/-- A string's `isEmpty` test is false exactly when the string is non-empty. -/
theorem isEmpty_false_iff (s : String) : (s.isEmpty = false) ↔ s ≠ "" := by
  rw [Bool.eq_false_iff]
  exact not_congr (String.isEmpty_iff s)

/-- The submit condition `username.trim() && image` read as a proposition. -/
theorem submitCond_iff (s : SessionState) :
    (!(trimString s.username).isEmpty && imageTruthy s.image) = true ↔
      (trimString s.username ≠ "" ∧ imageTruthy s.image = true) := by
  rw [Bool.and_eq_true, Bool.not_eq_true']
  exact and_congr_left fun _ => isEmpty_false_iff _

/-! ### Claim theorems -/

/-- C1: the export composites onto a 200x200 surface in the order save,
circular clip at (100,100) radius 90, draw into [10,10]-[190,190] under
that clip, restore, then stroke the same circle with line width 6 in
`#0d0bda`; the clip is active when the image is drawn and no longer active
when the border is stroked, and the exported PNG is 200x200 whatever the
source image dimensions. -/
theorem downloadPfp_composite_order :
    onloadOps =
      [CanvasOp.save,
       CanvasOp.beginPath, CanvasOp.arc 100 100 90 0 2, CanvasOp.clip,
       CanvasOp.drawImage 10 10 180 180,
       CanvasOp.restore,
       CanvasOp.setStrokeStyle "#0d0bda", CanvasOp.setLineWidth 6,
       CanvasOp.beginPath, CanvasOp.arc 100 100 90 0 2, CanvasOp.stroke] ∧
    onloadOps[4]? = some (CanvasOp.drawImage 10 10 180 180) ∧
    clipActiveAt onloadOps 4 = true ∧
    onloadOps[10]? = some CanvasOp.stroke ∧
    clipActiveAt onloadOps 10 = false ∧
    canvasWidth = 200 ∧ canvasHeight = 200 ∧
    (∀ srcW srcH : Nat, exportedPngSize srcW srcH = (200, 200)) :=
  ⟨rfl, rfl, by decide, rfl, by decide, rfl, rfl, fun _ _ => rfl⟩

/-- C2: the download file name replaces every character outside
`[a-zA-Z0-9]` with an underscore and appends `-octrafied-pfp.png`; in
particular `"ray@0x!"` yields `"ray_0x_-octrafied-pfp.png"` and `"alice"`
yields `"alice-octrafied-pfp.png"`. -/
theorem pfpFileName_spec :
    (∀ u : String, pfpFileName u =
      String.mk (u.data.map (fun c => if isAlphaNumChar c then c else '_')) ++
        "-octrafied-pfp.png") ∧
    pfpFileName "ray@0x!" = "ray_0x_-octrafied-pfp.png" ∧
    pfpFileName "alice" = "alice-octrafied-pfp.png" :=
  ⟨fun _ => rfl, by decide, by decide⟩

/-- C4: uploading a file whose MIME type does not begin with `image/`
raises the invalid-file alert and leaves the whole session state unchanged. -/
theorem handleImageUpload_invalid_type (f : UploadedFile) (r : ReadOutcome)
    (s : SessionState) (h : startsWithStr f.type "image/" = false) :
    handleImageUpload (some f) r s =
      (s, [Effect.alert "Please select a valid image file"]) := by
  simp [handleImageUpload, h]

/-- Witness for C4: a `text/plain` file is rejected with the alert and the
initial state is returned untouched. -/
theorem handleImageUpload_invalid_type_witness :
    startsWithStr "text/plain" "image/" = false ∧
    handleImageUpload (some ⟨"notes.txt", "text/plain"⟩) ReadOutcome.failure
        initialState =
      (initialState, [Effect.alert "Please select a valid image file"]) :=
  ⟨by decide, handleImageUpload_invalid_type ⟨"notes.txt", "text/plain"⟩
    ReadOutcome.failure initialState (by decide)⟩

/-- C6: `handleReset` restores the default state (empty username, no image,
Editing phase, download flag cleared) from any state, and doing it twice
gives the same state as doing it once. -/
theorem handleReset_default_idempotent :
    ∀ s : SessionState,
      handleReset s = initialState ∧
      handleReset (handleReset s) = handleReset s :=
  fun _ => ⟨rfl, rfl⟩

/-- C8: `setUsername` with any value of at most 20 characters stores the
value verbatim (no trimming) and changes nothing else. -/
theorem setUsername_verbatim (s : SessionState) (v : String)
    (hlen : v.length ≤ 20) :
    (setUsername s v).username = v ∧
    (setUsername s v).image = s.image ∧
    (setUsername s v).submitted = s.submitted ∧
    (setUsername s v).isDownloading = s.isDownloading :=
  ⟨rfl, rfl, rfl, rfl⟩

/-- Witness for C8: a whitespace-padded value is stored exactly as typed. -/
theorem setUsername_verbatim_witness :
    ("  ray  " : String).length ≤ 20 ∧
    ((setUsername initialState "  ray  ").username = "  ray  " ∧
     (setUsername initialState "  ray  ").image = initialState.image ∧
     (setUsername initialState "  ray  ").submitted = initialState.submitted ∧
     (setUsername initialState "  ray  ").isDownloading =
       initialState.isDownloading) :=
  ⟨by decide, setUsername_verbatim initialState "  ray  " (by decide)⟩

/-- C9: the error boundary reacts to every error by switching to the
recovery screen, whose Try Again button returns to the app, except that an
error whose message contains `"sender"` or `"wallet"` is ignored and does
not change what is rendered. -/
theorem errorBoundary_spec :
    (∀ (hasError : Bool) (msg : String),
      handleError hasError msg = (if isWalletError msg then hasError else true) ∧
      boundaryRender (handleError hasError msg) =
        (if isWalletError msg then boundaryRender hasError
         else BoundaryView.recoveryScreen) ∧
      boundaryRender (tryAgain (handleError hasError msg)) = BoundaryView.app) ∧
    handleError false "Cannot read properties of wallet provider" = false ∧
    handleError false "sender address rejected the request" = false ∧
    handleError false "TypeError: x is undefined" = true := by
  refine ⟨fun hasError msg => ?_, by decide, by decide, by decide⟩
  by_cases hw : isWalletError msg = true
  · simp [handleError, boundaryRender, tryAgain, hw]
  · simp [handleError, boundaryRender, tryAgain, hw]

/-- C3: from the Editing phase, `handleSubmit` moves to the Previewing
phase (sets `submitted`) exactly when the trimmed username is non-empty and
an image is present; when the condition fails it is a no-op. -/
theorem handleSubmit_previewing_iff (s : SessionState)
    (hphase : s.submitted = false) :
    ((handleSubmit s).submitted = true ↔
      (trimString s.username ≠ "" ∧ imageTruthy s.image = true)) ∧
    ((trimString s.username ≠ "" ∧ imageTruthy s.image = true) →
      handleSubmit s = { s with submitted := true }) ∧
    (¬(trimString s.username ≠ "" ∧ imageTruthy s.image = true) →
      handleSubmit s = s) := by
  cases hc : (!(trimString s.username).isEmpty && imageTruthy s.image) with
  | false =>
    have hns : handleSubmit s = s := by simp [handleSubmit, hc]
    have hnP : ¬(trimString s.username ≠ "" ∧ imageTruthy s.image = true) := by
      intro hP
      rw [(submitCond_iff s).mpr hP] at hc
      exact absurd hc (by decide)
    refine ⟨?_, fun hP => absurd hP hnP, fun _ => hns⟩
    rw [hns, hphase]
    exact ⟨fun h => absurd h (by decide), fun hP => absurd hP hnP⟩
  | true =>
    have hP := (submitCond_iff s).mp hc
    have hs : handleSubmit s = { s with submitted := true } := by
      simp [handleSubmit, hc]
    refine ⟨?_, fun _ => hs, fun hn => absurd hP hn⟩
    rw [hs]
    exact ⟨fun _ => hP, fun _ => rfl⟩

/-- Witness for C3: on a state holding username `"ray"` and a data-URL
image, submitting from the Editing phase sets `submitted`. -/
theorem handleSubmit_previewing_iff_witness :
    ((handleSubmit ⟨"ray", some "data:image/png;base64,AA", false, false⟩).submitted = true ↔
      (trimString "ray" ≠ "" ∧ imageTruthy (some "data:image/png;base64,AA") = true)) ∧
    ((trimString "ray" ≠ "" ∧ imageTruthy (some "data:image/png;base64,AA") = true) →
      handleSubmit ⟨"ray", some "data:image/png;base64,AA", false, false⟩ =
        ⟨"ray", some "data:image/png;base64,AA", true, false⟩) ∧
    (¬(trimString "ray" ≠ "" ∧ imageTruthy (some "data:image/png;base64,AA") = true) →
      handleSubmit ⟨"ray", some "data:image/png;base64,AA", false, false⟩ =
        ⟨"ray", some "data:image/png;base64,AA", false, false⟩) :=
  handleSubmit_previewing_iff ⟨"ray", some "data:image/png;base64,AA", false, false⟩ rfl

/-- C5: an export invoked when the busy flag is clear always finishes with
the busy flag clear again, whatever step of the export fails, and a failed
run that actually started surfaces exactly one alert, the download-failure
alert. -/
theorem downloadPfp_busy_cleanup (s : SessionState) (o : ExportOutcome)
    (hbusy : s.isDownloading = false) :
    (downloadPfpRun s o).isDownloading = false ∧
    (downloadPfp s o ≠ [] → o ≠ ExportOutcome.success →
      alertsOf (downloadPfp s o) =
        [Effect.alert "Failed to download PFP. Please try again."]) := by
  by_cases hg : (!imageTruthy s.image || (trimString s.username).isEmpty) = true
  · refine ⟨?_, fun hne _ => absurd (by simp [downloadPfp, hg]) hne⟩
    simp [downloadPfpRun, downloadPfp, hg, runEffects, hbusy]
  · cases o <;>
      refine ⟨?_, ?_⟩ <;>
      simp [downloadPfpRun, downloadPfp, hg, runEffects, applyEffect,
        exportBody, alertsOf]

/-- Witness for C5: a failing export from a valid idle state clears the
busy flag and alerts once. -/
theorem downloadPfp_busy_cleanup_witness :
    ((⟨"ray", some "data:image/png;base64,AA", true, false⟩ : SessionState).isDownloading
        = false) ∧
    ((downloadPfpRun ⟨"ray", some "data:image/png;base64,AA", true, false⟩
        ExportOutcome.imageLoadError).isDownloading = false ∧
     (downloadPfp ⟨"ray", some "data:image/png;base64,AA", true, false⟩
          ExportOutcome.imageLoadError ≠ [] →
        ExportOutcome.imageLoadError ≠ ExportOutcome.success →
        alertsOf (downloadPfp ⟨"ray", some "data:image/png;base64,AA", true, false⟩
            ExportOutcome.imageLoadError) =
          [Effect.alert "Failed to download PFP. Please try again."])) :=
  ⟨rfl, downloadPfp_busy_cleanup ⟨"ray", some "data:image/png;base64,AA", true, false⟩
    ExportOutcome.imageLoadError rfl⟩

/-- C10: invoking the export without its preconditions (no truthy image,
or whitespace-only username) is a complete no-op: no effects at all (so no
alert, no download, no busy-flag update) and the state is unchanged. -/
theorem downloadPfp_guard_noop (s : SessionState) (o : ExportOutcome)
    (h : imageTruthy s.image = false ∨ trimString s.username = "") :
    downloadPfp s o = [] ∧ downloadPfpRun s o = s := by
  have hg : (!imageTruthy s.image || (trimString s.username).isEmpty) = true := by
    rw [Bool.or_eq_true, Bool.not_eq_true']
    rcases h with h | h
    · exact Or.inl h
    · exact Or.inr ((String.isEmpty_iff _).mpr h)
  exact ⟨by simp [downloadPfp, hg], by simp [downloadPfpRun, downloadPfp, hg, runEffects]⟩

/-- Witness for C10: exporting from the initial state (no image) does
nothing. -/
theorem downloadPfp_guard_noop_witness :
    (imageTruthy initialState.image = false ∨ trimString initialState.username = "") ∧
    (downloadPfp initialState ExportOutcome.success = [] ∧
     downloadPfpRun initialState ExportOutcome.success = initialState) :=
  ⟨Or.inl rfl, downloadPfp_guard_noop initialState ExportOutcome.success (Or.inl rfl)⟩

/-- Every UI step preserves the session invariant. -/
theorem step_preserves_valid (s t : SessionState) (hv : SessionValid s)
    (hs : Step s t) : SessionValid t := by
  cases hs with
  | typeUsername v hlen hphase =>
    refine ⟨hlen, fun hsub => ?_⟩
    have h : s.submitted = true := hsub
    rw [hphase] at h
    exact absurd h (by decide)
  | chooseFile f r hphase =>
    obtain ⟨hu, hsb, _⟩ := handleImageUpload_frame f r s
    refine ⟨by rw [hu]; exact hv.1, fun hsub => ?_⟩
    rw [hsb, hphase] at hsub
    exact absurd hsub (by decide)
  | submitForm hphase =>
    cases hc : (!(trimString s.username).isEmpty && imageTruthy s.image) with
    | false =>
      have hns : handleSubmit s = s := by simp [handleSubmit, hc]
      rw [hns]; exact hv
    | true =>
      have hts : handleSubmit s = { s with submitted := true } := by
        simp [handleSubmit, hc]
      rw [hts]
      exact ⟨hv.1, fun _ => (submitCond_iff s).mp hc⟩
  | resetApp hphase =>
    exact ⟨Nat.zero_le 20, fun hsub => absurd hsub Bool.false_ne_true⟩
  | exportPfp o hphase hmade =>
    obtain ⟨hu, hi, hsb⟩ := downloadPfpRun_frame s o
    refine ⟨by rw [hu]; exact hv.1, fun hsub => ?_⟩
    rw [hsb] at hsub
    obtain ⟨h1, h2⟩ := hv.2 hsub
    exact ⟨by rw [hu]; exact h1, by rw [hi]; exact h2⟩

/-- Every reachable state satisfies the session invariant. -/
theorem reachable_valid (s : SessionState) (h : Reachable s) : SessionValid s := by
  induction h with
  | start => exact ⟨by decide, fun hsub => absurd hsub (by decide)⟩
  | next s t _ hs ih => exact step_preserves_valid s t ih hs

/-- C7: every operation preserves the session invariant, and consequently
in every reachable state the Previewing phase holds only with a trimmed
non-empty username of at most 20 characters and a present image. -/
theorem session_invariant :
    (∀ s t : SessionState, SessionValid s → Step s t → SessionValid t) ∧
    (∀ s : SessionState, Reachable s → s.submitted = true →
      trimString s.username ≠ "" ∧ s.username.length ≤ 20 ∧
        imageTruthy s.image = true) := by
  refine ⟨step_preserves_valid, fun s h hsub => ?_⟩
  obtain ⟨hlen, hval⟩ := reachable_valid s h
  obtain ⟨h1, h2⟩ := hval hsub
  exact ⟨h1, hlen, h2⟩

/-- Witness for C7: a concrete run (type `"ray"`, upload a PNG, submit)
reaches a Previewing state, on which the invariant conclusion holds. -/
theorem session_invariant_witness :
    trimString (handleSubmit ((handleImageUpload (some ⟨"a.png", "image/png"⟩)
        (ReadOutcome.success "data:image/png;base64,AA")
        (setUsername initialState "ray")).1)).username ≠ "" ∧
    (handleSubmit ((handleImageUpload (some ⟨"a.png", "image/png"⟩)
        (ReadOutcome.success "data:image/png;base64,AA")
        (setUsername initialState "ray")).1)).username.length ≤ 20 ∧
    imageTruthy (handleSubmit ((handleImageUpload (some ⟨"a.png", "image/png"⟩)
        (ReadOutcome.success "data:image/png;base64,AA")
        (setUsername initialState "ray")).1)).image = true := by
  refine session_invariant.2 _ ?_ (by decide)
  exact Reachable.next _ _
    (Reachable.next _ _
      (Reachable.next _ _ Reachable.start
        (Step.typeUsername initialState "ray" (by decide) rfl))
      (Step.chooseFile _ (some ⟨"a.png", "image/png"⟩)
        (ReadOutcome.success "data:image/png;base64,AA") rfl))
    (Step.submitForm _ (by decide))

end Octrafied
